import Mathlib

/-!
Shallow embedding of the ProxyHawk Python WebSocket client
(`src/clients/python/proxyhawk_client.py`), covering the request/response
correlation table, the subscription registry, the inbound message routing
(`_handle_message`, `_handle_domain_update`) and the request operations
(`test_domain`, `batch_test`, `subscribe`, `unsubscribe`, `get_regions`).

Modelling choices:
  * Python dicts (`self._message_handlers`, `self._subscriptions`) become
    association lists over `String` keys; `d[k] = v` is `setEntry`
    (replace-in-place or append, matching dict insertion-order semantics),
    `d.pop(k, None)` is `popEntry`, `k in d` / `d.get(k)` is `lookupEntry`.
  * An `asyncio.Future` becomes a record with a `done` flag and an optional
    stored envelope; `set_result` only fires when `done = false`, exactly as
    guarded in `_handle_message`.
  * Awaiting a future with a timeout is modelled by an `Option Envelope`
    argument (`some e` = the future was resolved with `e` before the
    deadline, `none` = `asyncio.TimeoutError`); `batch_test`'s repeated
    awaits take a list of envelopes, one per successive resolution.
  * Caller-supplied callbacks are an opaque type parameter `L`; whether a
    callback raises when invoked is an arbitrary function `raises : L → Bool`,
    and dispatch returns the list of callbacks actually invoked, in order.
  * Geo test payloads are opaque: `_parse_geo_test_result` is treated as the
    identity on an opaque result token (`String`), since this layer only
    deserializes payloads and the claims do not depend on their structure.
-/

/-- Wire envelope: one JSON message. Fields that may be absent on the wire
are modelled with sentinel defaults (`""` for absent strings, `[]` for
absent payloads), matching the `message.get(k, default)` accesses in the
source. -/
structure Envelope where
  type : String := ""
  id : String := ""
  domain : String := ""
  data : List String := []
  error : String := ""
deriving DecidableEq, Repr

/-- An `asyncio.Future` used as a completion handle: `done` is
`future.done()`, `value` the result stored by `set_result`. -/
structure Future where
  done : Bool
  value : Option Envelope
deriving DecidableEq, Repr

/-- A freshly created `asyncio.Future()`: not done, no result. -/
def Future.fresh : Future := ⟨false, none⟩

/-- `future.set_result(e)`: the handle becomes done and stores `e`. -/
def Future.resolved (e : Envelope) : Future := ⟨true, some e⟩

/-- Association-list lookup, modelling `d.get(k)` / `k in d` on a Python
dict with string keys. -/
def lookupEntry {α : Type} : List (String × α) → String → Option α
  | [], _ => none
  | (k, v) :: rest, key => if k = key then some v else lookupEntry rest key

/-- Association-list update, modelling `d[k] = v` on a Python dict:
replaces the value in place when the key is present (dicts keep the
original insertion position), appends otherwise. -/
def setEntry {α : Type} : List (String × α) → String → α → List (String × α)
  | [], key, v => [(key, v)]
  | (k, w) :: rest, key, v =>
      if k = key then (key, v) :: rest else (k, w) :: setEntry rest key v

/-- Association-list removal, modelling `d.pop(k, None)`. -/
def popEntry {α : Type} (xs : List (String × α)) (key : String) :
    List (String × α) :=
  xs.filter (fun p => p.1 != key)

/-- Client-side session state: `connected` flag, the correlation table
`_message_handlers`, the subscription registry `_subscriptions`, the
optional `_global_update_callback`, the `_message_counter`, and the
wall-clock milliseconds used in generated ids (`int(time.time()*1000)`,
held fixed here since only uniqueness within a session matters). -/
structure CState (L : Type) where
  connected : Bool
  handlers : List (String × Future)
  subscriptions : List (String × List L)
  globalCallback : Option L
  messageCounter : Nat
  clockMs : Nat

/-- `_generate_message_id`: bumps the counter and formats
`python_client_{time_ms}_{counter}`. -/
def generate_message_id {L : Type} (st : CState L) : String × CState L :=
  let t := st.clockMs
  let c := st.messageCounter + 1
  (s!"python_client_{t}_{c}", { st with messageCounter := c })

/-- `self._message_handlers[message_id] = future` with a fresh future: the
registration step of every request operation. A plain dict assignment — it
overwrites any existing entry and cannot fail. -/
def registerHandler (hs : List (String × Future)) (id : String) :
    List (String × Future) :=
  setEntry hs id Future.fresh

/-- Modelled from the spec (§4.2 `register(id) -> handle`): the correlation
table registration as the specification describes it, failing (here `none`)
when `id` is already registered. The repository's code has no such
operation; this definition exists only to be compared with
`registerHandler`, the registration the code actually performs. -/
def register_spec (hs : List (String × Future)) (id : String) :
    Option (List (String × Future)) :=
  match lookupEntry hs id with
  | some _ => none
  | none => some (setEntry hs id Future.fresh)

/-- Runs a list of callbacks in order. `catchErrors = true` models the
per-call `try/except` in `_handle_domain_update`; with `catchErrors =
false` a raising callback would abort the remaining calls. Returns the
callbacks actually invoked, in invocation order. -/
def runCallbacks {L : Type} (catchErrors : Bool) (raises : L → Bool) :
    List L → List L
  | [] => []
  | l :: rest =>
      l :: (if raises l && !catchErrors then [] else runCallbacks catchErrors raises rest)

/-- `_handle_domain_update(domain, data)`: invokes every callback
registered for `domain` (each call wrapped in `try/except`, the exception
only logged), then the global update callback if set (also wrapped).
Returns the callbacks invoked, in order. -/
def handleDomainUpdate {L : Type} (st : CState L) (raises : L → Bool)
    (domain : String) : List L :=
  (match lookupEntry st.subscriptions domain with
   | some ls => runCallbacks true raises ls
   | none => []) ++
  (match st.globalCallback with
   | some g => runCallbacks true raises [g]
   | none => [])

/-- Which branch of `_handle_message` an inbound envelope took. -/
inductive Route
  /-- Matched an outstanding correlation entry whose future was not yet
  done; `set_result` delivered the envelope. -/
  | correlatedDelivered
  /-- Matched a correlation entry whose future was already done; the
  envelope was silently dropped. -/
  | correlatedDropped
  /-- `type == "welcome"`: logged. -/
  | welcomeRoute
  /-- `type == "domain_update"`: dispatched to the subscription registry. -/
  | domainUpdateRoute
  /-- `type == "error"`: logged. -/
  | errorRoute
  /-- Anything else: logged as unhandled. -/
  | unhandledRoute
deriving DecidableEq, Repr

/-- The correlation test guarding the first branch of `_handle_message`:
`message_id and message_id in self._message_handlers` (empty string is
falsy in Python). -/
def correlate {L : Type} (st : CState L) (id : String) : Option Future :=
  if id = "" then none else lookupEntry st.handlers id

/-- `_handle_message(message)`: routes an inbound envelope. Returns the new
state, the list of subscription callbacks invoked (empty except on the
`domain_update` branch), and the branch taken. -/
def handleMessage {L : Type} (st : CState L) (raises : L → Bool)
    (msg : Envelope) : CState L × List L × Route :=
  match correlate st msg.id with
  | some f =>
      if f.done then (st, [], Route.correlatedDropped)
      else ({ st with handlers := setEntry st.handlers msg.id (Future.resolved msg) },
            [], Route.correlatedDelivered)
  | none =>
      if msg.type = "welcome" then (st, [], Route.welcomeRoute)
      else if msg.type = "domain_update" then
        (st, handleDomainUpdate st raises msg.domain, Route.domainUpdateRoute)
      else if msg.type = "error" then (st, [], Route.errorRoute)
      else (st, [], Route.unhandledRoute)

/-- Caller-visible outcome of a request operation. -/
inductive Outcome
  /-- `raise RuntimeError("Not connected to ProxyHawk")`. -/
  | notConnected
  /-- Normal return carrying no value (`subscribe` success, `unsubscribe`
  return paths). -/
  | okUnit
  /-- `test_domain` success: the parsed geo test payload. -/
  | okResult (data : List String)
  /-- `get_regions` return: the deserialized payload, returned verbatim. -/
  | okRegions (data : List String)
  /-- `batch_test` normal return: accumulated results, plus the inbound
  envelopes never awaited because the loop had terminated. -/
  | okBatch (results : List String) (leftover : List Envelope)
  /-- `batch_test` error branch: the error is logged, the loop breaks, and
  the results accumulated so far are returned as a normal value. -/
  | errBreakBatch (results : List String) (leftover : List Envelope)
  /-- `batch_test` received a response of unknown type: the future is never
  re-armed, so the loop re-reads the same resolved future forever. -/
  | stuckBatch (results : List String) (leftover : List Envelope)
  /-- `raise RuntimeError(...)` from a non-empty `error` field in the
  correlated response. -/
  | remoteError (msg : String)
  /-- `raise TimeoutError(f"Test timeout for domain: {domain}")`. -/
  | timeoutTest (domain : String)
  /-- `raise TimeoutError(...)` from `batch_test`, reporting how many of
  the requested results had arrived. -/
  | timeoutBatch (got : Nat) (want : Nat)
  /-- An uncaught `asyncio.TimeoutError` propagating out of `subscribe` or
  `get_regions`. -/
  | timeoutPlain
deriving DecidableEq, Repr

/-- The outbound `test` request envelope built by `test_domain`. -/
def testReq (mid domain : String) : Envelope :=
  { type := "test", id := mid, domain := domain }

/-- The outbound `batch_test` request envelope. -/
def batchReq (mid : String) (domains : List String) : Envelope :=
  { type := "batch_test", id := mid, data := domains }

/-- The outbound `subscribe` request envelope. -/
def subscribeReq (mid domain : String) : Envelope :=
  { type := "subscribe", id := mid, domain := domain }

/-- The outbound `unsubscribe` request envelope. -/
def unsubscribeReq (mid domain : String) : Envelope :=
  { type := "unsubscribe", id := mid, domain := domain }

/-- The outbound `get_regions` request envelope. -/
def getRegionsReq (mid : String) : Envelope :=
  { type := "get_regions", id := mid }

/-- `test_domain(domain)`: not-connected check, id generation, handler
registration, send, await (`resp`), error check, parse; the `finally`
always pops the handler. -/
def test_domain {L : Type} (st : CState L) (domain : String)
    (resp : Option Envelope) : Outcome × CState L × List Envelope :=
  if st.connected = false then (Outcome.notConnected, st, [])
  else
    let (mid, st1) := generate_message_id st
    let st2 := { st1 with handlers := registerHandler st1.handlers mid }
    let final := { st2 with handlers := popEntry st2.handlers mid }
    match resp with
    | none => (Outcome.timeoutTest domain, final, [testReq mid domain])
    | some e =>
        if e.error != "" then (Outcome.remoteError e.error, final, [testReq mid domain])
        else (Outcome.okResult e.data, final, [testReq mid domain])

/-- The `while len(results) < len(domains)` loop of `batch_test`, driven by
the successive envelopes the future is resolved with. `batch_result`
appends its payload and breaks; `batch_partial` appends its payload and
re-arms the future (the recursive call's length check is the `while`
condition); a non-empty `error` breaks returning the results so far; an
exhausted script is the `asyncio.TimeoutError`; an unknown type leaves the
already-resolved future in place, so the loop spins (marked `stuckBatch`). -/
def batchLoop (numDomains : Nat) : List String → List Envelope → Outcome
  | acc, script =>
    if numDomains ≤ acc.length then Outcome.okBatch acc script
    else
      match script with
      | [] => Outcome.timeoutBatch acc.length numDomains
      | e :: rest =>
          if e.error != "" then Outcome.errBreakBatch acc rest
          else if e.type = "batch_result" then Outcome.okBatch (acc ++ e.data) rest
          else if e.type = "batch_partial" then batchLoop numDomains (acc ++ e.data) rest
          else Outcome.stuckBatch acc rest

/-- `batch_test(domains)`: not-connected check, empty-input early return
(no envelope sent), otherwise one request is sent and the collection loop
runs; the `finally` pops the handler. -/
def batch_test {L : Type} (st : CState L) (domains : List String)
    (script : List Envelope) : Outcome × CState L × List Envelope :=
  if st.connected = false then (Outcome.notConnected, st, [])
  else if domains.length = 0 then (Outcome.okBatch [] script, st, [])
  else
    let (mid, st1) := generate_message_id st
    let st2 := { st1 with handlers := registerHandler st1.handlers mid }
    let final := { st2 with handlers := popEntry st2.handlers mid }
    (batchLoop domains.length [] script, final, [batchReq mid domains])

/-- `subscribe(domain, callback)` up to but excluding the `ws.send`: id
generation, local registration of the callback in `_subscriptions` (lines
350–353: create the list if absent, then append), and registration of the
completion handle. Everything `subscribe` does after this point starts with
the send. -/
def subscribe_pre_send {L : Type} (st : CState L) (domain : String)
    (cb : Option L) : String × CState L :=
  let (mid, st1) := generate_message_id st
  let st2 :=
    match cb with
    | some c =>
        { st1 with subscriptions :=
            match lookupEntry st1.subscriptions domain with
            | some ls => setEntry st1.subscriptions domain (ls ++ [c])
            | none => setEntry st1.subscriptions domain [c] }
    | none => st1
  (mid, { st2 with handlers := registerHandler st2.handlers mid })

/-- `subscribe` from the `ws.send` onwards: await the ack (none = the
10-second `wait_for` expires and the `TimeoutError` propagates), surface a
non-empty `error` as a failure; the `finally` pops the handler. The local
callback registration is never rolled back. -/
def subscribe_after_send {L : Type} (mid : String) (st : CState L)
    (resp : Option Envelope) : Outcome × CState L :=
  let final := { st with handlers := popEntry st.handlers mid }
  match resp with
  | none => (Outcome.timeoutPlain, final)
  | some e =>
      if e.error != "" then (Outcome.remoteError e.error, final)
      else (Outcome.okUnit, final)

/-- `subscribe(domain, callback)`: not-connected check, then the pre-send
phase (which registers the callback locally), then the send and the await. -/
def subscribe {L : Type} (st : CState L) (domain : String) (cb : Option L)
    (resp : Option Envelope) : Outcome × CState L × List Envelope :=
  if st.connected = false then (Outcome.notConnected, st, [])
  else
    let (mid, st1) := subscribe_pre_send st domain cb
    let (out, st2) := subscribe_after_send mid st1 resp
    (out, st2, [subscribeReq mid domain])

/-- `unsubscribe(domain)`: `if not self.connected: return` (a silent
return, not an error); otherwise register a handle, send, await the ack.
Only when the ack arrives before the 10-second timeout does
`self._subscriptions.pop(domain, None)` run; on `asyncio.TimeoutError` the
pop is skipped (the except branch merely logs a warning). The `finally`
pops the handler either way. -/
def unsubscribe {L : Type} (st : CState L) (domain : String)
    (resp : Option Envelope) : Outcome × CState L × List Envelope :=
  if st.connected = false then (Outcome.okUnit, st, [])
  else
    let (mid, st1) := generate_message_id st
    let st2 := { st1 with handlers := registerHandler st1.handlers mid }
    match resp with
    | some _ =>
        (Outcome.okUnit,
         { st2 with
            subscriptions := popEntry st2.subscriptions domain,
            handlers := popEntry st2.handlers mid },
         [unsubscribeReq mid domain])
    | none =>
        (Outcome.okUnit,
         { st2 with handlers := popEntry st2.handlers mid },
         [unsubscribeReq mid domain])

/-- `get_regions()`: not-connected check, register, send, await, return the
deserialized payload verbatim — the `error` field of the response is never
inspected. -/
def get_regions {L : Type} (st : CState L) (resp : Option Envelope) :
    Outcome × CState L × List Envelope :=
  if st.connected = false then (Outcome.notConnected, st, [])
  else
    let (mid, st1) := generate_message_id st
    let st2 := { st1 with handlers := registerHandler st1.handlers mid }
    let final := { st2 with handlers := popEntry st2.handlers mid }
    match resp with
    | none => (Outcome.timeoutPlain, final, [getRegionsReq mid])
    | some e => (Outcome.okRegions e.data, final, [getRegionsReq mid])

/-! ### Concrete states and envelopes used to instantiate the theorems -/

/-- A connected session with one pending handle, one subscribed listener
and a global listener. -/
def wSt3 : CState Nat :=
  { connected := true,
    handlers := [("python_client_0_1", Future.fresh)],
    subscriptions := [("example.com", [5])],
    globalCallback := some 6,
    messageCounter := 1, clockMs := 0 }

/-- A `domain_update`-typed envelope carrying the id of the pending handle
of `wSt3`. -/
def wMsg3 : Envelope :=
  { type := "domain_update", id := "python_client_0_1",
    domain := "example.com", data := ["payload"] }

/-- An envelope already stored in a resolved handle. -/
def wEnv10 : Envelope :=
  { type := "test", id := "python_client_0_1", data := ["old"] }

/-- A connected session whose only correlation entry is already resolved,
with a subscribed listener and a global listener. -/
def wSt10 : CState Nat :=
  { connected := true,
    handlers := [("python_client_0_1", Future.resolved wEnv10)],
    subscriptions := [("example.com", [5])],
    globalCallback := some 6,
    messageCounter := 1, clockMs := 0 }

/-- A late `domain_update` reusing the id of the already-resolved entry of
`wSt10`. -/
def wMsg10 : Envelope :=
  { type := "domain_update", id := "python_client_0_1",
    domain := "example.com", data := ["update"] }

/-- Three listeners on one domain plus a global listener. -/
def wSt7 : CState Nat :=
  { connected := true, handlers := [],
    subscriptions := [("example.com", [1, 2, 3])],
    globalCallback := some 9,
    messageCounter := 0, clockMs := 0 }

/-- A freshly connected session with empty tables. -/
def wSt8 : CState Nat :=
  { connected := true, handlers := [], subscriptions := [],
    globalCallback := none, messageCounter := 0, clockMs := 0 }

/-- A connected session with empty tables, used for the batch scenario and
the error-response instances. -/
def bSt : CState Nat :=
  { connected := true, handlers := [], subscriptions := [],
    globalCallback := none, messageCounter := 0, clockMs := 0 }

/-- The scenario's `batch_partial`: the first two of three results. -/
def pEnv : Envelope :=
  { type := "batch_partial", id := "python_client_0_1", data := ["r-a", "r-b"] }

/-- The scenario's terminating `batch_result` with the third result. -/
def rEnv : Envelope :=
  { type := "batch_result", id := "python_client_0_1", data := ["r-c"] }

/-- An unrelated envelope arriving after the batch finished. -/
def junkEnv : Envelope := { type := "welcome" }

/-- A connected session with one listener registered for "example.com". -/
def uSt : CState Nat :=
  { connected := true, handlers := [], subscriptions := [("example.com", [7])],
    globalCallback := none, messageCounter := 0, clockMs := 0 }

/-- A disconnected session. -/
def dSt : CState Nat :=
  { connected := false, handlers := [], subscriptions := [],
    globalCallback := none, messageCounter := 0, clockMs := 0 }

/-- A correlated response that carries both a payload and a non-empty
`error` field. -/
def errEnv : Envelope :=
  { type := "get_regions", id := "python_client_0_1",
    data := ["us-west"], error := "boom" }

/-! ### Basic lemmas about the dict model and the callback runner -/

/-- After `d[k] = v`, looking up `k` yields `v`. -/
theorem lookupEntry_setEntry_self {α : Type} (k : String) (v : α) :
    ∀ xs : List (String × α), lookupEntry (setEntry xs k v) k = some v
  | [] => by simp [setEntry, lookupEntry]
  | (a, b) :: rest => by
      by_cases h : a = k
      · simp [setEntry, lookupEntry, h]
      · simp [setEntry, lookupEntry, h, lookupEntry_setEntry_self k v rest]

/-- After `d.pop(k, None)`, `k` is no longer present. -/
theorem lookupEntry_popEntry_self {α : Type} (k : String) :
    ∀ xs : List (String × α), lookupEntry (popEntry xs k) k = none
  | [] => by simp [popEntry, lookupEntry]
  | (a, b) :: rest => by
      by_cases h : a = k
      · subst h
        simpa [popEntry, List.filter_cons] using lookupEntry_popEntry_self a rest
      · have hb : ((a, b).1 != k) = true := by simpa [bne_iff_ne] using h
        simpa [popEntry, List.filter_cons, hb, lookupEntry, h] using
          lookupEntry_popEntry_self k rest

/-- With each call wrapped in `try/except`, every callback in the list is
invoked, in order, whatever the raising behavior. -/
theorem runCallbacks_true {L : Type} (raises : L → Bool) :
    ∀ ls : List L, runCallbacks true raises ls = ls
  | [] => by simp [runCallbacks]
  | l :: rest => by simp [runCallbacks, runCallbacks_true raises rest]

/-- Membership in the invocation list of `_handle_domain_update`, from
membership in the domain's registered listener list. -/
theorem mem_handleDomainUpdate {L : Type} (st : CState L) (raises : L → Bool)
    (domain : String) (ls : List L) (cb : L)
    (hs : lookupEntry st.subscriptions domain = some ls) (hcb : cb ∈ ls) :
    cb ∈ handleDomainUpdate st raises domain := by
  unfold handleDomainUpdate
  rw [hs]
  exact List.mem_append_left _ (by simpa [runCallbacks_true] using hcb)

/-- The subscription table produced by the pre-send phase of `subscribe`
holds the callback under the requested domain. -/
theorem subscribe_pre_send_subscriptions {L : Type} (st : CState L)
    (domain : String) (cb : L) :
    ∃ ls, lookupEntry (subscribe_pre_send st domain (some cb)).2.subscriptions
            domain = some ls ∧ cb ∈ ls := by
  unfold subscribe_pre_send generate_message_id
  cases hl : lookupEntry st.subscriptions domain with
  | none =>
      exact ⟨[cb], by simp [hl, lookupEntry_setEntry_self], by simp⟩
  | some ls =>
      exact ⟨ls ++ [cb], by simp [hl, lookupEntry_setEntry_self], by simp⟩

/-! ### Claim theorems -/

/-- C3: an inbound envelope whose non-empty id matches an outstanding
correlation entry (whose completion handle is not yet resolved) is
delivered to that handle — the future receives the envelope — and is not
routed anywhere else: no subscription callback is invoked and none of the
welcome/domain_update/error/unknown branches run, regardless of the
envelope's `type`. -/
theorem handleMessage_outstanding_id_delivers {L : Type} (st : CState L)
    (raises : L → Bool) (msg : Envelope) (f : Future)
    (hid : msg.id ≠ "") (hf : lookupEntry st.handlers msg.id = some f)
    (hdone : f.done = false) :
    handleMessage st raises msg =
      ({ st with handlers := setEntry st.handlers msg.id (Future.resolved msg) },
       [], Route.correlatedDelivered) := by
  simp [handleMessage, correlate, hid, hf, hdone]

/-- Witness for C3: a `domain_update`-typed envelope whose id matches a
pending handle goes to the handle, not to the subscribed listener. -/
theorem handleMessage_outstanding_id_delivers_witness :
    handleMessage wSt3 (fun _ => false) wMsg3 =
      ({ wSt3 with
          handlers := setEntry wSt3.handlers wMsg3.id (Future.resolved wMsg3) },
       [], Route.correlatedDelivered) :=
  handleMessage_outstanding_id_delivers wSt3 (fun _ => false) wMsg3 Future.fresh
    (by decide) (by decide) rfl

/-- C10: an inbound envelope whose id matches a correlation entry whose
handle is already resolved (`done`) but not yet removed is dropped
entirely: the state is unchanged (no second delivery to the handle), no
subscription callback is invoked, and no push branch runs — even when the
type is `domain_update` for a subscribed domain. -/
theorem handleMessage_resolved_entry_drops {L : Type} (st : CState L)
    (raises : L → Bool) (msg : Envelope) (f : Future)
    (hid : msg.id ≠ "") (hf : lookupEntry st.handlers msg.id = some f)
    (hdone : f.done = true) :
    handleMessage st raises msg = (st, [], Route.correlatedDropped) := by
  simp [handleMessage, correlate, hid, hf, hdone]

/-- Witness for C10: a `domain_update` for a subscribed domain carrying the
id of an already-resolved handle is dropped — no listener runs. -/
theorem handleMessage_resolved_entry_drops_witness :
    handleMessage wSt10 (fun _ => false) wMsg10 =
      (wSt10, [], Route.correlatedDropped) :=
  handleMessage_resolved_entry_drops wSt10 (fun _ => false) wMsg10
    (Future.resolved wEnv10) (by decide) (by decide) rfl

/-- C7: dispatching a `domain_update` invokes every listener registered for
the domain, in insertion order, followed by the global update listener, and
this invocation list is independent of which listeners raise — each call is
isolated by its own `try/except`. -/
theorem dispatch_invokes_all_listeners {L : Type} (st : CState L)
    (raises : L → Bool) (domain : String) (ls : List L) (g : L)
    (hs : lookupEntry st.subscriptions domain = some ls)
    (hg : st.globalCallback = some g) :
    handleDomainUpdate st raises domain = ls ++ [g] := by
  simp [handleDomainUpdate, hs, hg, runCallbacks_true, runCallbacks]

/-- Witness for C7: with the middle listener raising, all three listeners
and the global listener are still invoked, in order. -/
theorem dispatch_invokes_all_listeners_witness :
    handleDomainUpdate wSt7 (fun l => l == 2) "example.com" = [1, 2, 3, 9] :=
  dispatch_invokes_all_listeners wSt7 (fun l => l == 2) "example.com"
    [1, 2, 3] 9 (by decide) rfl

/-- C8: `subscribe(domain, cb)` registers `cb` in the local subscription
table during its pre-send phase, and everything else it does — the send and
the wait for the acknowledgment — operates on (and after) that already-
registered state; hence a `domain_update` dispatched against the
pre-send state, i.e. at any point after local registration and before any
network round trip, already invokes `cb`. -/
theorem subscribe_registers_callback_before_send {L : Type} (st : CState L)
    (domain : String) (cb : L) (resp : Option Envelope) (raises : L → Bool)
    (hc : st.connected = true) :
    cb ∈ handleDomainUpdate (subscribe_pre_send st domain (some cb)).2 raises domain
    ∧ subscribe st domain (some cb) resp =
        ((subscribe_after_send (subscribe_pre_send st domain (some cb)).1
            (subscribe_pre_send st domain (some cb)).2 resp).1,
         (subscribe_after_send (subscribe_pre_send st domain (some cb)).1
            (subscribe_pre_send st domain (some cb)).2 resp).2,
         [subscribeReq (subscribe_pre_send st domain (some cb)).1 domain]) := by
  constructor
  · obtain ⟨ls, hls, hcb⟩ := subscribe_pre_send_subscriptions st domain cb
    exact mem_handleDomainUpdate _ raises domain ls cb hls hcb
  · rcases hps : subscribe_pre_send st domain (some cb) with ⟨mid, st1⟩
    rcases has : subscribe_after_send mid st1 resp with ⟨out, st2⟩
    simp [subscribe, hc, hps, has]

/-- Witness for C8 at a concrete state, callback and acknowledgment. -/
theorem subscribe_registers_callback_before_send_witness :
    4 ∈ handleDomainUpdate (subscribe_pre_send wSt8 "example.com" (some 4)).2
          (fun _ => false) "example.com"
    ∧ subscribe wSt8 "example.com" (some 4) (some { id := "python_client_0_1" }) =
        ((subscribe_after_send (subscribe_pre_send wSt8 "example.com" (some 4)).1
            (subscribe_pre_send wSt8 "example.com" (some 4)).2
            (some { id := "python_client_0_1" })).1,
         (subscribe_after_send (subscribe_pre_send wSt8 "example.com" (some 4)).1
            (subscribe_pre_send wSt8 "example.com" (some 4)).2
            (some { id := "python_client_0_1" })).2,
         [subscribeReq (subscribe_pre_send wSt8 "example.com" (some 4)).1 "example.com"]) :=
  subscribe_registers_callback_before_send wSt8 "example.com" 4
    (some { id := "python_client_0_1" }) (fun _ => false) rfl

/-- C9: when `subscribe(domain, cb)` fails after registering `cb` locally —
the acknowledgment carries a non-empty error, or the wait times out — the
failure is surfaced (a propagated timeout or a raised subscription error),
yet `cb` stays in the local subscription table: a later `domain_update`
dispatched against the post-call state still invokes `cb`. -/
theorem subscribe_failure_keeps_local_registration {L : Type} (st : CState L)
    (domain : String) (cb : L) (resp : Option Envelope) (raises : L → Bool)
    (hc : st.connected = true)
    (hfail : resp = none ∨ ∃ e, resp = some e ∧ e.error ≠ "") :
    ((subscribe st domain (some cb) resp).1 = Outcome.timeoutPlain ∨
      ∃ m, (subscribe st domain (some cb) resp).1 = Outcome.remoteError m)
    ∧ cb ∈ handleDomainUpdate (subscribe st domain (some cb) resp).2.1 raises domain := by
  rcases hps : subscribe_pre_send st domain (some cb) with ⟨mid, st1⟩
  obtain ⟨ls, hls, hcb⟩ := subscribe_pre_send_subscriptions st domain cb
  rw [hps] at hls
  have hsubs : ∀ out st2, subscribe_after_send mid st1 resp = (out, st2) →
      st2.subscriptions = st1.subscriptions := by
    intro out st2 h
    cases resp with
    | none => cases h; rfl
    | some e =>
        by_cases he : e.error != ""
        · simp [subscribe_after_send, he] at h
          rw [← h.2]
        · simp [subscribe_after_send, he] at h
          rw [← h.2]
  rcases has : subscribe_after_send mid st1 resp with ⟨out, st2⟩
  have hst2 : st2.subscriptions = st1.subscriptions := hsubs out st2 has
  have hfinal : subscribe st domain (some cb) resp
      = (out, st2, [subscribeReq mid domain]) := by
    simp [subscribe, hc, hps, has]
  constructor
  · rcases hfail with hnone | ⟨e, hsome, he⟩
    · left
      subst hnone
      simp [subscribe_after_send] at has
      rw [hfinal, ← has.1]
    · right
      refine ⟨e.error, ?_⟩
      subst hsome
      have hb : (e.error != "") = true := by simpa [bne_iff_ne] using he
      simp [subscribe_after_send, hb] at has
      rw [hfinal, ← has.1]
  · rw [hfinal]
    exact mem_handleDomainUpdate st2 raises domain ls cb (by rw [hst2]; exact hls) hcb

/-- Witness for C9: a timed-out subscribe acknowledgment leaves the
callback registered. -/
theorem subscribe_failure_keeps_local_registration_witness :
    ((subscribe wSt3 "example.com" (some 4) none).1 = Outcome.timeoutPlain ∨
      ∃ m, (subscribe wSt3 "example.com" (some 4) none).1 = Outcome.remoteError m)
    ∧ 4 ∈ handleDomainUpdate (subscribe wSt3 "example.com" (some 4) none).2.1
          (fun _ => false) "example.com" :=
  subscribe_failure_keeps_local_registration wSt3 "example.com" 4 none
    (fun _ => false) rfl (Or.inl rfl)

/-- One `batch_partial` round of the collection loop with the count still
below target: the partial's results are appended and the loop re-arms and
waits again. -/
theorem batchLoop_partial_step (n : Nat) (acc : List String) (e : Envelope)
    (rest : List Envelope) (he : e.error = "") (ht : e.type = "batch_partial")
    (hlen : acc.length < n) :
    batchLoop n acc (e :: rest) = batchLoop n (acc ++ e.data) rest := by
  conv_lhs => rw [batchLoop.eq_def]
  simp [he, ht, Nat.not_le_of_lt hlen]

/-- A `batch_result` with the count still below target: its results are
appended and the loop terminates, leaving the rest of the inbound stream
unconsumed. -/
theorem batchLoop_result_step (n : Nat) (acc : List String) (e : Envelope)
    (rest : List Envelope) (he : e.error = "") (ht : e.type = "batch_result")
    (hlen : acc.length < n) :
    batchLoop n acc (e :: rest) = Outcome.okBatch (acc ++ e.data) rest := by
  conv_lhs => rw [batchLoop.eq_def]
  simp [he, ht, Nat.not_le_of_lt hlen]

/-- The `while` guard: once the accumulated count reaches the requested
domain count the loop terminates with the accumulated results. -/
theorem batchLoop_count_stop (n : Nat) (acc : List String)
    (script : List Envelope) (hlen : n ≤ acc.length) :
    batchLoop n acc script = Outcome.okBatch acc script := by
  rw [batchLoop.eq_def]
  simp [hlen]

/-- C4: the batch collection loop appends each `batch_partial`'s results in
arrival order and re-arms while the count is below the requested domain
count; it terminates at a `batch_result` (after appending its contents) or
when the count reaches the domain count; and in the concrete three-domain
scenario — one partial with two results, then a result with one — the
caller gets all three results in order and the call stops at the
`batch_result`, leaving any later envelope unconsumed. -/
theorem batch_test_accumulates_partials :
    (∀ (n : Nat) (acc : List String) (e : Envelope) (rest : List Envelope),
        e.error = "" → e.type = "batch_partial" → acc.length < n →
        batchLoop n acc (e :: rest) = batchLoop n (acc ++ e.data) rest)
    ∧ (∀ (n : Nat) (acc : List String) (e : Envelope) (rest : List Envelope),
        e.error = "" → e.type = "batch_result" → acc.length < n →
        batchLoop n acc (e :: rest) = Outcome.okBatch (acc ++ e.data) rest)
    ∧ (∀ (n : Nat) (acc : List String) (script : List Envelope),
        n ≤ acc.length → batchLoop n acc script = Outcome.okBatch acc script)
    ∧ batch_test bSt ["a.com", "b.com", "c.com"] [pEnv, rEnv, junkEnv]
        = (Outcome.okBatch ["r-a", "r-b", "r-c"] [junkEnv],
           { bSt with messageCounter := 1 },
           [batchReq "python_client_0_1" ["a.com", "b.com", "c.com"]]) :=
  ⟨batchLoop_partial_step, batchLoop_result_step, batchLoop_count_stop, by rfl⟩

/-- Witness for C4: the three general laws applied at the scenario's own
inputs. -/
theorem batch_test_accumulates_partials_witness :
    batchLoop 3 [] [pEnv, rEnv] = batchLoop 3 ["r-a", "r-b"] [rEnv]
    ∧ batchLoop 3 ["r-a", "r-b"] [rEnv] = Outcome.okBatch ["r-a", "r-b", "r-c"] []
    ∧ batchLoop 3 ["r-a", "r-b", "r-c"] [junkEnv]
        = Outcome.okBatch ["r-a", "r-b", "r-c"] [junkEnv] :=
  ⟨batch_test_accumulates_partials.1 3 [] pEnv [rEnv] rfl rfl (by decide),
   batch_test_accumulates_partials.2.1 3 ["r-a", "r-b"] rEnv [] rfl rfl (by decide),
   batch_test_accumulates_partials.2.2.1 3 ["r-a", "r-b", "r-c"] [junkEnv] (by decide)⟩

/-- Counterexample to C1: with one listener registered for "example.com",
an `unsubscribe("example.com")` whose acknowledgment wait times out leaves
that listener in the local subscription table — the table does not end up
empty for the domain. -/
theorem unsubscribe_timeout_retains_listeners_cex :
    lookupEntry (unsubscribe uSt "example.com" none).2.1.subscriptions
      "example.com" = some [7]
    ∧ (unsubscribe uSt "example.com" none).1 = Outcome.okUnit := by
  exact ⟨rfl, rfl⟩

/-- C1 as amended: after `unsubscribe(domain)`, the local listeners for the
domain are removed when the acknowledgment arrives before the timeout; when
the wait times out, the timeout is only logged and the subscription table
is left unchanged, listeners included. -/
theorem unsubscribe_removes_only_on_ack {L : Type} (st : CState L)
    (domain : String) (e : Envelope) (hc : st.connected = true) :
    lookupEntry (unsubscribe st domain (some e)).2.1.subscriptions domain = none
    ∧ (unsubscribe st domain none).2.1.subscriptions = st.subscriptions := by
  constructor
  · simp [unsubscribe, hc, generate_message_id, lookupEntry_popEntry_self]
  · simp [unsubscribe, hc, generate_message_id]

/-- Witness for the amended C1 at a concrete state and acknowledgment. -/
theorem unsubscribe_removes_only_on_ack_witness :
    lookupEntry (unsubscribe uSt "example.com"
        (some { id := "python_client_0_1" })).2.1.subscriptions "example.com" = none
    ∧ (unsubscribe uSt "example.com" none).2.1.subscriptions = uSt.subscriptions :=
  unsubscribe_removes_only_on_ack uSt "example.com"
    { id := "python_client_0_1" } rfl

/-- Counterexample to C2: registering a completion handle under an id that
is already registered is a plain dict assignment — it succeeds and
overwrites, where the specified registration (`register_spec`) would fail.
-/
theorem registerHandler_duplicate_accepted_cex :
    registerHandler [("a", Future.resolved { type := "test" })] "a"
      = [("a", Future.fresh)]
    ∧ register_spec [("a", Future.resolved { type := "test" })] "a" = none := by
  exact ⟨rfl, rfl⟩

/-- C2 as amended: registering under an already-registered id is accepted —
the table afterwards maps the id to the new fresh handle (last-write-wins
replacement); no caller error exists on this path. -/
theorem registerHandler_duplicate_overwrites (hs : List (String × Future))
    (id : String) (f : Future) (h : lookupEntry hs id = some f) :
    lookupEntry (registerHandler hs id) id = some Future.fresh := by
  simp [registerHandler, lookupEntry_setEntry_self]

/-- Witness for the amended C2 at a concrete one-entry table. -/
theorem registerHandler_duplicate_overwrites_witness :
    lookupEntry (registerHandler [("a", Future.resolved { type := "test" })] "a")
      "a" = some Future.fresh :=
  registerHandler_duplicate_overwrites [("a", Future.resolved { type := "test" })]
    "a" (Future.resolved { type := "test" }) rfl

/-- Counterexample to C5: `unsubscribe` invoked while disconnected returns
silently — a normal completion, not a not-connected failure (it does send
nothing). -/
theorem unsubscribe_disconnected_no_error_cex :
    unsubscribe dSt "a.com" none = (Outcome.okUnit, dSt, [])
    ∧ Outcome.okUnit ≠ Outcome.notConnected := by
  exact ⟨rfl, by decide⟩

/-- C5 as amended: while `connected = false`, `test_domain`, `batch_test`,
`subscribe` and `get_regions` fail immediately with the not-connected error
and send nothing; `unsubscribe` returns immediately and silently, also
sending nothing. -/
theorem requests_disconnected_behavior {L : Type} (st : CState L)
    (d : String) (ds : List String) (cb : Option L) (resp : Option Envelope)
    (script : List Envelope) (hc : st.connected = false) :
    test_domain st d resp = (Outcome.notConnected, st, [])
    ∧ batch_test st ds script = (Outcome.notConnected, st, [])
    ∧ subscribe st d cb resp = (Outcome.notConnected, st, [])
    ∧ get_regions st resp = (Outcome.notConnected, st, [])
    ∧ unsubscribe st d resp = (Outcome.okUnit, st, []) := by
  simp [test_domain, batch_test, subscribe, get_regions, unsubscribe, hc]

/-- Witness for the amended C5 at a concrete disconnected state. -/
theorem requests_disconnected_behavior_witness :
    test_domain dSt "a.com" none = (Outcome.notConnected, dSt, [])
    ∧ batch_test dSt ["a.com"] [] = (Outcome.notConnected, dSt, [])
    ∧ subscribe dSt "a.com" (some 4) none = (Outcome.notConnected, dSt, [])
    ∧ get_regions dSt none = (Outcome.notConnected, dSt, [])
    ∧ unsubscribe dSt "a.com" none = (Outcome.okUnit, dSt, []) :=
  requests_disconnected_behavior dSt "a.com" ["a.com"] (some 4) none [] rfl

/-- Counterexample to C6: `get_regions` never inspects the response's
`error` field — a correlated response carrying `error = "boom"` is returned
as a successful region list, not surfaced as a failure. -/
theorem get_regions_returns_payload_despite_error_cex :
    errEnv.error = "boom"
    ∧ (get_regions bSt (some errEnv)).1 = Outcome.okRegions ["us-west"]
    ∧ Outcome.okRegions ["us-west"] ≠ Outcome.remoteError "boom" := by
  exact ⟨rfl, rfl, by decide⟩

/-- C6 as amended: a correlated response with a non-empty `error` field is
surfaced as a failure by `test_domain` and `subscribe`; `get_regions` does
not inspect the field and returns the payload as a success. -/
theorem remote_error_surfacing {L : Type} (st : CState L) (d : String)
    (cb : Option L) (e : Envelope) (hc : st.connected = true)
    (he : e.error ≠ "") :
    (test_domain st d (some e)).1 = Outcome.remoteError e.error
    ∧ (subscribe st d cb (some e)).1 = Outcome.remoteError e.error
    ∧ (get_regions st (some e)).1 = Outcome.okRegions e.data := by
  have hb : (e.error != "") = true := by simpa [bne_iff_ne] using he
  refine ⟨?_, ?_, ?_⟩
  · simp [test_domain, hc, hb]
  · rcases hps : subscribe_pre_send st d cb with ⟨mid, st1⟩
    simp [subscribe, hc, hps, subscribe_after_send, hb]
  · simp [get_regions, hc]

/-- Witness for the amended C6 at a concrete connected state and
error-bearing response. -/
theorem remote_error_surfacing_witness :
    (test_domain bSt "a.com" (some errEnv)).1 = Outcome.remoteError "boom"
    ∧ (subscribe bSt "a.com" (some 4) (some errEnv)).1 = Outcome.remoteError "boom"
    ∧ (get_regions bSt (some errEnv)).1 = Outcome.okRegions ["us-west"] :=
  remote_error_surfacing bSt "a.com" (some 4) errEnv rfl (by decide)
